import Mathlib

/-!
Shallow embedding of the client-side state logic of the task-detail modal
(`src/components/TaskDetailModal.tsx`, with the reduced variant in
`src/unnamed/part_000`).  The React component manages a local edit buffer
(`localDetails : EditableExtendedTaskDetails`) that mirrors the persisted
`task.extendedDetails`, plus auxiliary UI state.  Every handler of the
component is a pure transformation of that buffer together with the small
pieces of UI state it reads and writes; we embed each handler as a Lean
function over the same data, with the external generative-AI calls and the
`confirm` dialog passed in as explicit outcomes, and the
`generateUniqueId` prop passed as a function together with an explicit call
counter.  The record types mirror the fields of `types.ts` that the
component reads and writes; optional TypeScript fields become `Option`.
-/

/-- A 2-D position `{ x, y }` of a sub-step card on the canvas.
Pixel coordinates can be negative after the drop offset is subtracted,
so they are integers. -/
structure Position where
  x : Int
  y : Int
deriving Repr, DecidableEq

/-- The `subStepCanvasSize` record `{ width, height }`. -/
structure CanvasSize where
  width : Nat
  height : Nat
deriving Repr, DecidableEq

/-- An action item `{ id, text, completed, completedDate? }` as read and
written by the component. -/
structure ActionItem where
  id : String
  text : String
  completed : Bool
  completedDate : Option String := none
deriving Repr, DecidableEq

/-- An attachment `{ id, name, type, dataUrl }` as created by
`handleAttachmentChange`. -/
structure Attachment where
  id : String
  name : String
  type : String
  dataUrl : String
deriving Repr, DecidableEq

/-- A sub-step card `{ id, text, notes?, position?, actionItems?,
attachments? }`; the optional fields are exactly those the component
accesses with `?.` or `||` fallbacks. -/
structure SubStep where
  id : String
  text : String
  notes : Option String := none
  position : Option Position := none
  actionItems : Option (List ActionItem) := none
  attachments : Option (List Attachment) := none
deriving Repr, DecidableEq

/-- A decision entry; the component renders `id`, `question`, `status`
(`"decided"` or not), and the optional `decision`, `reasoning`, `date`. -/
structure Decision where
  id : String
  question : String
  status : String
  decision : Option String := none
  reasoning : Option String := none
  date : Option String := none
deriving Repr, DecidableEq

/-- A slide deck; the component only reads `slides.length` and stores the
deck opaquely, so slides are kept abstract as strings. -/
structure SlideDeck where
  slides : List String
deriving Repr, DecidableEq

/-- The editable task details `EditableExtendedTaskDetails`: the local edit
buffer and the persisted `task.extendedDetails` both have this shape. -/
structure EditableExtendedTaskDetails where
  subSteps : List SubStep
  resources : String
  responsible : String
  notes : String
  attachments : Option (List Attachment) := none
  decisions : Option (List Decision) := none
  subStepCanvasSize : Option CanvasSize := none
  reportDeck : Option SlideDeck := none
deriving Repr, DecidableEq

/-! ## JSON serialization

The autosave effect compares `JSON.stringify(localDetails)` with
`JSON.stringify(extendedDetails)`.  We model `JSON.stringify` on the data
model above: fields appear in declaration order, string values are quoted,
and an optional field that is `none` (TypeScript `undefined`) is omitted,
as `JSON.stringify` omits `undefined` properties. -/

/-- JSON string literal (quotation of escape sequences is not needed for
the comparison the autosave effect performs). -/
def jstr (s : String) : String := "\"" ++ s ++ "\""

/-- JSON boolean literal. -/
def jbool (b : Bool) : String := if b then "true" else "false"

/-- JSON array literal from already-serialized elements. -/
def jarr (xs : List String) : String := "[" ++ String.intercalate "," xs ++ "]"

/-- JSON object literal from key/value pairs; a `none` value means the
property is `undefined` and is omitted. -/
def jobj (fields : List (String × Option String)) : String :=
  "\x7b" ++
    String.intercalate ","
      (fields.filterMap (fun kv => kv.2.map (fun v => jstr kv.1 ++ ":" ++ v))) ++
  "\x7d"

/-- Serialization of a `Position`. -/
def Position.stringify (p : Position) : String :=
  jobj [("x", some (toString p.x)), ("y", some (toString p.y))]

/-- Serialization of a `CanvasSize`. -/
def CanvasSize.stringify (c : CanvasSize) : String :=
  jobj [("width", some (toString c.width)), ("height", some (toString c.height))]

/-- Serialization of an `ActionItem`. -/
def ActionItem.stringify (ai : ActionItem) : String :=
  jobj [("id", some (jstr ai.id)), ("text", some (jstr ai.text)),
        ("completed", some (jbool ai.completed)),
        ("completedDate", ai.completedDate.map jstr)]

/-- Serialization of an `Attachment`. -/
def Attachment.stringify (a : Attachment) : String :=
  jobj [("id", some (jstr a.id)), ("name", some (jstr a.name)),
        ("type", some (jstr a.type)), ("dataUrl", some (jstr a.dataUrl))]

/-- Serialization of a `SubStep`. -/
def SubStep.stringify (ss : SubStep) : String :=
  jobj [("id", some (jstr ss.id)), ("text", some (jstr ss.text)),
        ("notes", ss.notes.map jstr),
        ("position", ss.position.map Position.stringify),
        ("actionItems", ss.actionItems.map (fun l => jarr (l.map ActionItem.stringify))),
        ("attachments", ss.attachments.map (fun l => jarr (l.map Attachment.stringify)))]

/-- Serialization of a `Decision`. -/
def Decision.stringify (d : Decision) : String :=
  jobj [("id", some (jstr d.id)), ("question", some (jstr d.question)),
        ("status", some (jstr d.status)), ("decision", d.decision.map jstr),
        ("reasoning", d.reasoning.map jstr), ("date", d.date.map jstr)]

/-- Serialization of a `SlideDeck`. -/
def SlideDeck.stringify (d : SlideDeck) : String :=
  jobj [("slides", some (jarr (d.slides.map jstr)))]

/-- Serialization of the whole details record, the value
`JSON.stringify(localDetails)` compared by the autosave effect. -/
def EditableExtendedTaskDetails.stringify (d : EditableExtendedTaskDetails) : String :=
  jobj [("subSteps", some (jarr (d.subSteps.map SubStep.stringify))),
        ("resources", some (jstr d.resources)),
        ("responsible", some (jstr d.responsible)),
        ("notes", some (jstr d.notes)),
        ("attachments", d.attachments.map (fun l => jarr (l.map Attachment.stringify))),
        ("decisions", d.decisions.map (fun l => jarr (l.map Decision.stringify))),
        ("subStepCanvasSize", d.subStepCanvasSize.map CanvasSize.stringify),
        ("reportDeck", d.reportDeck.map SlideDeck.stringify)]

/-! ## Derived persisted value and autosave -/

/-- The fallback details object in `task.extendedDetails || { ... }`. -/
def defaultExtendedDetails : EditableExtendedTaskDetails :=
  { subSteps := []
    resources := ""
    responsible := ""
    notes := ""
    attachments := some []
    decisions := some []
    subStepCanvasSize := some { width := 1200, height := 800 } }

/-- `extendedDetails` memo: `task.extendedDetails || defaultExtendedDetails`
(an object is always truthy, `undefined` is falsy). -/
def extendedDetailsOf (taskExtendedDetails : Option EditableExtendedTaskDetails) :
    EditableExtendedTaskDetails :=
  taskExtendedDetails.getD defaultExtendedDetails

/-- One firing of the debounced autosave effect: after the timeout, when
`JSON.stringify(localDetails) !== JSON.stringify(extendedDetails)` it calls
`onUpdateTask(task.id, localDetails)` (via `saveChanges`); otherwise it does
nothing.  The result is the emitted call, if any. -/
def autosaveTick (taskId : String)
    (localDetails extendedDetails : EditableExtendedTaskDetails) :
    Option (String × EditableExtendedTaskDetails) :=
  if EditableExtendedTaskDetails.stringify localDetails ≠
      EditableExtendedTaskDetails.stringify extendedDetails then
    some (taskId, localDetails)
  else
    none

/-! ## Partial updates

`handleUpdateSubStep` and `handleUpdateActionItem` receive TypeScript
`Partial<...>` values and apply them by object spread `{ ...ss, ...updates }`:
a key present in the update replaces the field, an absent key leaves it.  A
patch is therefore a record of `Option`s over the fields. -/

/-- A `Partial<SubStep>` update. -/
structure SubStepPatch where
  id : Option String := none
  text : Option String := none
  notes : Option (Option String) := none
  position : Option (Option Position) := none
  actionItems : Option (Option (List ActionItem)) := none
  attachments : Option (Option (List Attachment)) := none
deriving Repr, DecidableEq

/-- Object spread `{ ...ss, ...updates }` for a sub-step. -/
def SubStep.applyPatch (ss : SubStep) (p : SubStepPatch) : SubStep :=
  { id := p.id.getD ss.id
    text := p.text.getD ss.text
    notes := p.notes.getD ss.notes
    position := p.position.getD ss.position
    actionItems := p.actionItems.getD ss.actionItems
    attachments := p.attachments.getD ss.attachments }

/-- A `Partial<ActionItem>` update. -/
structure ActionItemPatch where
  id : Option String := none
  text : Option String := none
  completed : Option Bool := none
  completedDate : Option (Option String) := none
deriving Repr, DecidableEq

/-- Object spread `{ ...ai, ...updates }` for an action item. -/
def ActionItem.applyPatch (ai : ActionItem) (p : ActionItemPatch) : ActionItem :=
  { id := p.id.getD ai.id
    text := p.text.getD ai.text
    completed := p.completed.getD ai.completed
    completedDate := p.completedDate.getD ai.completedDate }

/-! ## Sub-step and action-item handlers -/

/-- `handleAddSubStep`: when editable, appends a fresh sub-step titled
`新しいサブステップ` at position (50, 50) with empty notes, action items and
attachments, consuming one id from `generateUniqueId('substep')`; the
returned number is the advanced call counter of `generateUniqueId`. -/
def handleAddSubStep (canEdit : Bool) (uid : String → Nat → String) (n : Nat)
    (details : EditableExtendedTaskDetails) : EditableExtendedTaskDetails × Nat :=
  if !canEdit then (details, n)
  else
    ({ details with
        subSteps := details.subSteps ++
          [{ id := uid "substep" n
             text := "新しいサブステップ"
             notes := some ""
             position := some { x := 50, y := 50 }
             actionItems := some []
             attachments := some [] }] }, n + 1)

/-- `handleUpdateSubStep`: when editable, maps over the sub-steps and
spreads the update into the one whose id matches. -/
def handleUpdateSubStep (canEdit : Bool) (details : EditableExtendedTaskDetails)
    (subStepId : String) (updates : SubStepPatch) : EditableExtendedTaskDetails :=
  if !canEdit then details
  else
    { details with
        subSteps := details.subSteps.map (fun ss =>
          if ss.id = subStepId then ss.applyPatch updates else ss) }

/-- `handleRemoveSubStep`: when editable and the `confirm` dialog was
accepted, filters out the sub-steps whose id equals the given one. -/
def handleRemoveSubStep (canEdit confirmed : Bool)
    (details : EditableExtendedTaskDetails) (subStepId : String) :
    EditableExtendedTaskDetails :=
  if !canEdit then details
  else if confirmed then
    { details with subSteps := details.subSteps.filter (fun ss => ss.id ≠ subStepId) }
  else details

/-- `handleAddActionItem`: when editable, appends a fresh action item
(`新しいアクションアイテム`, not completed) to the matching sub-step's
list, treating a missing `actionItems` field as empty. -/
def handleAddActionItem (canEdit : Bool) (uid : String → Nat → String) (n : Nat)
    (subStepId : String) (details : EditableExtendedTaskDetails) :
    EditableExtendedTaskDetails × Nat :=
  if !canEdit then (details, n)
  else
    ({ details with
        subSteps := details.subSteps.map (fun ss =>
          if ss.id = subStepId then
            { ss with
                actionItems := some ((ss.actionItems.getD []) ++
                  [{ id := uid "action" n
                     text := "新しいアクションアイテム"
                     completed := false }]) }
          else ss) }, n + 1)

/-- `handleUpdateActionItem`: when editable, spreads the update into the
matching action item of the matching sub-step; a missing `actionItems`
field becomes the empty list (`?.map(...) || []`). -/
def handleUpdateActionItem (canEdit : Bool) (subStepId actionItemId : String)
    (updates : ActionItemPatch) (details : EditableExtendedTaskDetails) :
    EditableExtendedTaskDetails :=
  if !canEdit then details
  else
    { details with
        subSteps := details.subSteps.map (fun ss =>
          if ss.id = subStepId then
            { ss with
                actionItems := some ((ss.actionItems.getD []).map (fun ai =>
                  if ai.id = actionItemId then ai.applyPatch updates else ai)) }
          else ss) }

/-- `handleRemoveActionItem`: when editable and confirmed, filters the
matching action item out of the matching sub-step; a missing
`actionItems` field becomes the empty list (`?.filter(...) || []`). -/
def handleRemoveActionItem (canEdit confirmed : Bool)
    (subStepId actionItemId : String) (details : EditableExtendedTaskDetails) :
    EditableExtendedTaskDetails :=
  if !canEdit then details
  else if confirmed then
    { details with
        subSteps := details.subSteps.map (fun ss =>
          if ss.id = subStepId then
            { ss with
                actionItems := some ((ss.actionItems.getD []).filter (fun ai =>
                  ai.id ≠ actionItemId)) }
          else ss) }
  else details

/-! ## Drag and drop -/

/-- `handleSubStepDragStart`: when editable, records the dragged sub-step
id (the `effectAllowed` assignment has no data effect). -/
def handleSubStepDragStart (canEdit : Bool) (subStepId : String)
    (draggedSubStep : Option String) : Option String :=
  if !canEdit then draggedSubStep else some subStepId

/-- `handleCanvasDrop`: when editable, a drag is in progress and the canvas
ref is set, moves the dragged sub-step to
`(clientX - rect.left - 100, clientY - rect.top - 50)` via
`handleUpdateSubStep` and clears the dragged id; otherwise it returns
without any effect.  The result pairs the new details with the new
`draggedSubStep` state. -/
def handleCanvasDrop (canEdit : Bool) (draggedSubStep : Option String)
    (canvasPresent : Bool) (clientX clientY rectLeft rectTop : Int)
    (details : EditableExtendedTaskDetails) :
    EditableExtendedTaskDetails × Option String :=
  match draggedSubStep with
  | none => (details, none)
  | some dragged =>
    if !canEdit || !canvasPresent then (details, some dragged)
    else
      (handleUpdateSubStep canEdit details dragged
        { position := some (some { x := clientX - rectLeft - 100
                                   y := clientY - rectTop - 50 }) },
       none)

/-! ## Attachments -/

/-- A selected file as the handlers see it: `name`, `type`, `size` in
bytes, and the data URL the `FileReader` produces for it. -/
structure FileData where
  name : String
  type : String
  size : Nat
  dataUrl : String
deriving Repr, DecidableEq

/-- Result of `handleAttachmentChange`: the new details, whether the file
input's value was reset to the empty string, and the advanced
`generateUniqueId` counter. -/
structure AttachmentChangeResult where
  details : EditableExtendedTaskDetails
  inputCleared : Bool
  counter : Nat
deriving Repr, DecidableEq

/-- `MAX_FILE_SIZE_BYTES = MAX_FILE_SIZE_MB * 1024 * 1024` with
`MAX_FILE_SIZE_MB = 5`. -/
def MAX_FILE_SIZE_BYTES : Nat := 5 * 1024 * 1024

/-- `handleAttachmentChange`: when editable and a file is selected, a file
larger than `MAX_FILE_SIZE_BYTES` is rejected (alert, input cleared,
details untouched); otherwise, once the reader delivers the data URL, a
fresh attachment with the file's name, type and data URL is appended to
the existing attachments (a missing list counting as empty) and the input
is cleared. -/
def handleAttachmentChange (canEdit : Bool) (file : Option FileData)
    (uid : String → Nat → String) (n : Nat)
    (details : EditableExtendedTaskDetails) : AttachmentChangeResult :=
  if !canEdit then { details := details, inputCleared := false, counter := n }
  else
    match file with
    | none => { details := details, inputCleared := false, counter := n }
    | some f =>
      if f.size > MAX_FILE_SIZE_BYTES then
        { details := details, inputCleared := true, counter := n }
      else
        { details := { details with
            attachments := some ((details.attachments.getD []) ++
              [{ id := uid "attach" n, name := f.name, type := f.type,
                 dataUrl := f.dataUrl }]) }
          inputCleared := true
          counter := n + 1 }

/-- `handleRemoveAttachment`: when editable, filters out the attachment
with the given id (`?.filter(...) || []`). -/
def handleRemoveAttachment (canEdit : Bool) (attachmentId : String)
    (details : EditableExtendedTaskDetails) : EditableExtendedTaskDetails :=
  if !canEdit then details
  else
    { details with
        attachments := some ((details.attachments.getD []).filter (fun a =>
          a.id ≠ attachmentId)) }

/-! ## Proposal confirmation

`handleProposalConfirm` receives the confirmed AI proposals: a list of new
sub-steps (title/description pairs) and a list of new action-item requests
targeting sub-steps by id.  It maps the proposals to fresh sub-steps laid
out on a 3-column grid, appends them to the existing sub-steps, and then
walks the requests, pushing each onto the **first** sub-step of the
combined list whose id equals the request's target (`Array.find`), calling
`generateUniqueId('action')` only when a target is found. -/

/-- A proposed new sub-step `{ title, description }`. -/
structure Proposal where
  title : String
  description : String
deriving Repr, DecidableEq

/-- A requested new action item `{ targetSubStepId, title }`. -/
structure NewActionItemRequest where
  targetSubStepId : String
  title : String
deriving Repr, DecidableEq

/-- The sub-step built from the `index`-th confirmed proposal (0-based):
grid position `(50 + (index % 3) * 300, 50 + ⌊index / 3⌋ * 200)`, empty
action items and attachments. -/
def proposalSubStep (uid : String → Nat → String) (n0 index : Nat)
    (p : Proposal) : SubStep :=
  { id := uid "substep" (n0 + index)
    text := p.title
    notes := some p.description
    position := some { x := 50 + ((index % 3 : Nat) : Int) * 300
                       y := 50 + ((index / 3 : Nat) : Int) * 200 }
    actionItems := some []
    attachments := some [] }

/-- `additions.newSubSteps.map((proposal, index) => ...)`, with the running
index made explicit. -/
def mkProposalSubSteps (uid : String → Nat → String) (n0 : Nat) :
    List Proposal → Nat → List SubStep
  | [], _ => []
  | p :: ps, index =>
      proposalSubStep uid n0 index p :: mkProposalSubSteps uid n0 ps (index + 1)

/-- `updatedSubSteps.find(ss => ss.id === targetId)` followed by a push of
the new action item onto the found sub-step (a missing `actionItems` list
counts as empty): the first matching sub-step gets the item, everything
else is untouched. -/
def pushActionTo (targetId : String) (ai : ActionItem) :
    List SubStep → List SubStep
  | [] => []
  | ss :: rest =>
    if ss.id = targetId then
      { ss with actionItems := some ((ss.actionItems.getD []) ++ [ai]) } :: rest
    else ss :: pushActionTo targetId ai rest

/-- The `additions.newActionItems.forEach(...)` loop: each request whose
target exists appends a fresh not-completed action item to the first
matching sub-step, consuming one `generateUniqueId('action')` id; a request
with no matching target is skipped. -/
def applyActionRequests (uid : String → Nat → String) :
    List NewActionItemRequest → List SubStep → Nat → List SubStep × Nat
  | [], subs, n => (subs, n)
  | r :: rs, subs, n =>
    if subs.any (fun ss => ss.id = r.targetSubStepId) then
      applyActionRequests uid rs
        (pushActionTo r.targetSubStepId
          { id := uid "action" n, text := r.title, completed := false } subs)
        (n + 1)
    else
      applyActionRequests uid rs subs n

/-- `handleProposalConfirm`: builds the new sub-steps, appends them after
the existing ones, applies the action-item requests to the combined list,
and stores the result in the details (the handler also closes the review
modal, a piece of UI state with no bearing on the details). -/
def handleProposalConfirm (uid : String → Nat → String) (n0 : Nat)
    (details : EditableExtendedTaskDetails)
    (newSubStepProposals : List Proposal)
    (newActionItems : List NewActionItemRequest) :
    EditableExtendedTaskDetails × Nat :=
  let news := mkProposalSubSteps uid n0 newSubStepProposals 0
  let step := applyActionRequests uid newActionItems
      (details.subSteps ++ news) (n0 + newSubStepProposals.length)
  ({ details with subSteps := step.1 }, step.2)

/-- A sub-step with its `actionItems` erased; the action-item requests
phase of `handleProposalConfirm` changes nothing visible through this
projection. -/
def SubStep.sansActions (ss : SubStep) : SubStep := { ss with actionItems := none }

/-! ## Flattened action items -/

/-- `flattenedActionItems` memo: walks the sub-steps in order and pushes
each of their action items (skipping a missing `actionItems` field) paired
with the owning sub-step. -/
def flattenedActionItems (details : EditableExtendedTaskDetails) :
    List (ActionItem × SubStep) :=
  details.subSteps.foldl
    (fun items ss =>
      (ss.actionItems.getD []).foldl (fun acc ai => acc ++ [(ai, ss)]) items)
    []

/-! ## Asynchronous AI handlers

`handleGenerateProposals` and `handleGenerateSlides` await a call to the
external generative-AI service inside `try/catch/finally`.  We pass the
call's outcome in explicitly: `Except.ok` for a normal return and
`Except.error e` for a throw, where `e : Option String` is `some msg` when
the thrown value is an `Error` with message `msg` and `none` for a
non-`Error` value (for which the handler uses a fixed fallback message). -/

/-- The fallback slide-generation error message. -/
def slideErrorFallback : String := "スライドの生成に失敗しました。"

/-- The UI state read and written by `handleGenerateSlides`. -/
structure SlidesState where
  details : EditableExtendedTaskDetails
  isSlideEditorOpen : Bool
  isGeneratingSlides : Bool
  slideError : Option String
deriving Repr, DecidableEq

/-- `handleGenerateSlides`: with a deck already present it opens the
editor and returns at once; otherwise it flags generation, clears the
error, awaits `generateInitialSlideDeck`, and on success stores the deck
and opens the editor while on failure it records the error message, with
the generating flag cleared in the `finally` block either way. -/
def handleGenerateSlides (st : SlidesState)
    (callResult : Except (Option String) SlideDeck) : SlidesState :=
  if st.details.reportDeck.isSome then { st with isSlideEditorOpen := true }
  else
    match callResult with
    | .ok deck =>
        { st with
            details := { st.details with reportDeck := some deck }
            isSlideEditorOpen := true
            isGeneratingSlides := false
            slideError := none }
    | .error e =>
        { st with
            isGeneratingSlides := false
            slideError := some (e.getD slideErrorFallback) }

/-- The fallback proposal-generation error message. -/
def proposalErrorFallback : String := "ステップ提案の生成に失敗しました。"

/-- The UI state read and written by `handleGenerateProposals`. -/
structure ProposalsState where
  details : EditableExtendedTaskDetails
  proposals : List Proposal
  showProposalReview : Bool
  isGeneratingProposals : Bool
  proposalError : Option String
deriving Repr, DecidableEq

/-- `handleGenerateProposals`: gated on `canEdit`; flags generation,
clears the error, awaits `generateStepProposals`, and on success stores
the proposals and opens the review modal while on failure it records the
error message, with the generating flag cleared in the `finally` block
either way. -/
def handleGenerateProposals (canEdit : Bool) (st : ProposalsState)
    (callResult : Except (Option String) (List Proposal)) : ProposalsState :=
  if !canEdit then st
  else
    match callResult with
    | .ok ps =>
        { st with
            proposals := ps
            showProposalReview := true
            isGeneratingProposals := false
            proposalError := none }
    | .error e =>
        { st with
            isGeneratingProposals := false
            proposalError := some (e.getD proposalErrorFallback) }

/-! ## Read-only gating

Every mutating handler of the modal starts with `if (!canEdit) return;`.
To state the gating invariant over arbitrary interleavings we package the
state those handlers can touch and an operation alphabet covering each of
them, dispatching to the handler embeddings above. -/

/-- The mutable state reachable from the gated handlers: the edit buffer,
the proposal-flow state, the drag state, and the `generateUniqueId` call
counter. -/
structure ModalState where
  details : EditableExtendedTaskDetails
  proposals : List Proposal
  showProposalReview : Bool
  isGeneratingProposals : Bool
  proposalError : Option String
  draggedSubStep : Option String
  uidCalls : Nat
deriving Repr, DecidableEq

/-- One invocation of a gated handler, with the inputs it receives. -/
inductive ModalOp where
  | generateProposals (callResult : Except (Option String) (List Proposal))
  | addSubStep
  | updateSubStep (subStepId : String) (updates : SubStepPatch)
  | removeSubStep (confirmed : Bool) (subStepId : String)
  | addActionItem (subStepId : String)
  | updateActionItem (subStepId actionItemId : String) (updates : ActionItemPatch)
  | removeActionItem (confirmed : Bool) (subStepId actionItemId : String)
  | attachmentChange (file : Option FileData)
  | removeAttachment (attachmentId : String)
  | subStepDragStart (subStepId : String)
  | canvasDrop (canvasPresent : Bool) (clientX clientY rectLeft rectTop : Int)

/-- Dispatch of one gated handler invocation on the modal state. -/
def applyOp (uid : String → Nat → String) (canEdit : Bool)
    (st : ModalState) : ModalOp → ModalState
  | .generateProposals r =>
      let ps := handleGenerateProposals canEdit
        { details := st.details
          proposals := st.proposals
          showProposalReview := st.showProposalReview
          isGeneratingProposals := st.isGeneratingProposals
          proposalError := st.proposalError } r
      { st with
          details := ps.details
          proposals := ps.proposals
          showProposalReview := ps.showProposalReview
          isGeneratingProposals := ps.isGeneratingProposals
          proposalError := ps.proposalError }
  | .addSubStep =>
      let r := handleAddSubStep canEdit uid st.uidCalls st.details
      { st with details := r.1, uidCalls := r.2 }
  | .updateSubStep subStepId updates =>
      { st with details := handleUpdateSubStep canEdit st.details subStepId updates }
  | .removeSubStep confirmed subStepId =>
      { st with details := handleRemoveSubStep canEdit confirmed st.details subStepId }
  | .addActionItem subStepId =>
      let r := handleAddActionItem canEdit uid st.uidCalls subStepId st.details
      { st with details := r.1, uidCalls := r.2 }
  | .updateActionItem subStepId actionItemId updates =>
      { st with
          details := handleUpdateActionItem canEdit subStepId actionItemId
            updates st.details }
  | .removeActionItem confirmed subStepId actionItemId =>
      { st with
          details := handleRemoveActionItem canEdit confirmed subStepId
            actionItemId st.details }
  | .attachmentChange file =>
      let r := handleAttachmentChange canEdit file uid st.uidCalls st.details
      { st with details := r.details, uidCalls := r.counter }
  | .removeAttachment attachmentId =>
      { st with details := handleRemoveAttachment canEdit attachmentId st.details }
  | .subStepDragStart subStepId =>
      { st with
          draggedSubStep := handleSubStepDragStart canEdit subStepId
            st.draggedSubStep }
  | .canvasDrop canvasPresent clientX clientY rectLeft rectTop =>
      let r := handleCanvasDrop canEdit st.draggedSubStep canvasPresent
        clientX clientY rectLeft rectTop st.details
      { st with details := r.1, draggedSubStep := r.2 }

/-! ## Concrete example inputs used by the witnesses -/

/-- Example action item. -/
def exActionA : ActionItem := { id := "a1", text := "A", completed := true }

/-- Example sub-step holding one action item. -/
def exSubStep1 : SubStep := { id := "s1", text := "one", actionItems := some [exActionA] }

/-- Example sub-step with no action items. -/
def exSubStep2 : SubStep := { id := "s2", text := "two" }

/-- Example details with two sub-steps. -/
def exDetails : EditableExtendedTaskDetails :=
  { defaultExtendedDetails with subSteps := [exSubStep1, exSubStep2] }

/-- Example id generator. -/
def exUid (tag : String) (n : Nat) : String := tag ++ "-" ++ toString n

/-- Example confirmed proposals (four, to exercise the 3-column grid). -/
def exProps : List Proposal :=
  [{ title := "P0", description := "d0" }, { title := "P1", description := "d1" },
   { title := "P2", description := "d2" }, { title := "P3", description := "d3" }]

/-- Example slides state with no deck and the modal idle. -/
def exSlidesState : SlidesState :=
  { details := exDetails, isSlideEditorOpen := false, isGeneratingSlides := false,
    slideError := none }

/-- Example proposals state with the review modal closed and the modal idle. -/
def exProposalsState : ProposalsState :=
  { details := exDetails, proposals := [], showProposalReview := false,
    isGeneratingProposals := false, proposalError := none }

/-- Example slide deck. -/
def exDeck : SlideDeck := { slides := ["cover"] }

/-- Claim C1: the autosave effect calls `onUpdateTask` with the task's id
and the entire current local buffer exactly when the JSON serializations of
the local buffer and the persisted `extendedDetails` differ, and makes no
call when they are equal. -/
theorem autosave_call_iff_serialization_differs
    (taskId : String) (localDetails extendedDetails : EditableExtendedTaskDetails) :
    (autosaveTick taskId localDetails extendedDetails = some (taskId, localDetails) ↔
      EditableExtendedTaskDetails.stringify localDetails ≠
        EditableExtendedTaskDetails.stringify extendedDetails) ∧
    (EditableExtendedTaskDetails.stringify localDetails =
        EditableExtendedTaskDetails.stringify extendedDetails →
      autosaveTick taskId localDetails extendedDetails = none) := by
  constructor
  · constructor
    · intro h
      by_contra heq
      simp [autosaveTick, heq] at h
    · intro h
      simp [autosaveTick, h]
  · intro h
    simp [autosaveTick, h]

/-- Witness for C1: with an untouched empty buffer no save call is made,
and with a changed notes field the call carries the task id and buffer. -/
theorem autosave_call_iff_serialization_differs_witness :
    autosaveTick "t1" defaultExtendedDetails defaultExtendedDetails = none ∧
    autosaveTick "t1" { defaultExtendedDetails with notes := "x" } defaultExtendedDetails =
      some ("t1", { defaultExtendedDetails with notes := "x" }) := by
  refine ⟨(autosave_call_iff_serialization_differs "t1" defaultExtendedDetails
    defaultExtendedDetails).2 rfl, ?_⟩
  exact (autosave_call_iff_serialization_differs "t1"
    { defaultExtendedDetails with notes := "x" } defaultExtendedDetails).1.2 (by decide)

/-- Claim C2: dropping a dragged sub-step that exists in the buffer sets
only that sub-step's `position` field to
`(clientX - rect.left - 100, clientY - rect.top - 50)`, clears the dragged
id, and leaves every other field of that sub-step, every other sub-step,
and every non-`subSteps` field of the details unchanged. -/
theorem canvasDrop_updates_only_dragged_position
    (dragged : String) (clientX clientY rectLeft rectTop : Int)
    (details : EditableExtendedTaskDetails)
    (_hmem : dragged ∈ details.subSteps.map SubStep.id) :
    (handleCanvasDrop true (some dragged) true clientX clientY rectLeft rectTop
        details).2 = none ∧
    (handleCanvasDrop true (some dragged) true clientX clientY rectLeft rectTop
        details).1 =
      { details with
          subSteps := details.subSteps.map (fun ss =>
            if ss.id = dragged then
              { ss with position := some { x := clientX - rectLeft - 100
                                           y := clientY - rectTop - 50 } }
            else ss) } := by
  exact ⟨rfl, rfl⟩

/-- Witness for C2: dropping sub-step `s2` of the example details at
client point (400, 300) over a canvas whose rectangle starts at (20, 10)
moves it to (280, 240) and touches nothing else. -/
theorem canvasDrop_updates_only_dragged_position_witness :
    "s2" ∈ exDetails.subSteps.map SubStep.id ∧
    (handleCanvasDrop true (some "s2") true 400 300 20 10 exDetails).2 = none ∧
    (handleCanvasDrop true (some "s2") true 400 300 20 10 exDetails).1 =
      { exDetails with
          subSteps := [exSubStep1, { exSubStep2 with
            position := some { x := 280, y := 240 } }] } := by
  refine ⟨by decide, (canvasDrop_updates_only_dragged_position "s2" 400 300 20 10
    exDetails (by decide)).1, ?_⟩
  have h := (canvasDrop_updates_only_dragged_position "s2" 400 300 20 10
    exDetails (by decide)).2
  rw [h]
  decide

/-- Claim C3: after confirmation, `handleRemoveSubStep` removes exactly the
sub-steps whose id equals the given one and preserves all others in order;
`handleUpdateSubStep` applies the partial update only to the sub-step with
the matching id; and when no sub-step matches, both operations leave the
sub-step list unchanged. -/
theorem subStep_crud_correct (details : EditableExtendedTaskDetails)
    (subStepId : String) (updates : SubStepPatch) :
    (∀ ss ∈ (handleRemoveSubStep true true details subStepId).subSteps,
        ss.id ≠ subStepId) ∧
    (handleRemoveSubStep true true details subStepId).subSteps.Sublist
        details.subSteps ∧
    (∀ ss, ss.id ≠ subStepId →
        ((handleRemoveSubStep true true details subStepId).subSteps.count ss =
          details.subSteps.count ss)) ∧
    ((handleUpdateSubStep true details subStepId updates).subSteps.length =
        details.subSteps.length) ∧
    (∀ i (hi : i < details.subSteps.length),
        (handleUpdateSubStep true details subStepId updates).subSteps[i]? =
          some (if (details.subSteps.get ⟨i, hi⟩).id = subStepId
                then (details.subSteps.get ⟨i, hi⟩).applyPatch updates
                else details.subSteps.get ⟨i, hi⟩)) ∧
    ((∀ ss ∈ details.subSteps, ss.id ≠ subStepId) →
        (handleRemoveSubStep true true details subStepId).subSteps =
          details.subSteps ∧
        (handleUpdateSubStep true details subStepId updates).subSteps =
          details.subSteps) := by
  refine ⟨?_, ?_, ?_, ?_, ?_, ?_⟩
  · intro ss hss
    simp [handleRemoveSubStep] at hss
    exact hss.2
  · simp only [handleRemoveSubStep, Bool.not_true, Bool.false_eq_true, if_false,
      if_true]
    exact List.filter_sublist details.subSteps
  · intro ss hss
    simp only [handleRemoveSubStep, Bool.not_true, Bool.false_eq_true, if_false,
      if_true]
    exact List.count_filter (by simpa using hss)
  · simp [handleUpdateSubStep]
  · intro i hi
    simp [handleUpdateSubStep, List.getElem?_map, List.getElem?_eq_getElem hi,
      List.get_eq_getElem]
  · intro h
    constructor
    · simp only [handleRemoveSubStep, Bool.not_true, Bool.false_eq_true, if_false,
        if_true]
      exact List.filter_eq_self.mpr (fun ss hss => by simpa using h ss hss)
    · simp only [handleUpdateSubStep, Bool.not_true, Bool.false_eq_true, if_false]
      have : details.subSteps.map (fun ss =>
          if ss.id = subStepId then ss.applyPatch updates else ss) =
          details.subSteps.map id := by
        apply List.map_congr_left
        intro ss hss
        simp [h ss hss]
      simp [this]

/-- Witness for C3: removing `s1` from the example details leaves no
sub-step with id `s1`, and removing or updating a nonexistent id leaves
the list unchanged. -/
theorem subStep_crud_correct_witness :
    (∀ ss ∈ (handleRemoveSubStep true true exDetails "s1").subSteps,
        ss.id ≠ "s1") ∧
    ((handleRemoveSubStep true true exDetails "nope").subSteps =
        exDetails.subSteps ∧
      (handleUpdateSubStep true exDetails "nope"
          { text := some "T" }).subSteps = exDetails.subSteps) := by
  refine ⟨(subStep_crud_correct exDetails "s1" {}).1, ?_⟩
  exact (subStep_crud_correct exDetails "nope"
    { text := some "T" }).2.2.2.2.2 (by decide)

/-- Claim C5: a selected file is rejected exactly when its size exceeds
5 × 1024 × 1024 bytes; on rejection the details are unchanged and the file
input is cleared, and otherwise a fresh attachment with the file's name,
type and data URL is appended to the otherwise-preserved attachments
list. -/
theorem attachment_size_limit (f : FileData) (uid : String → Nat → String)
    (n : Nat) (details : EditableExtendedTaskDetails) :
    (f.size > 5 * 1024 * 1024 →
      handleAttachmentChange true (some f) uid n details =
        { details := details, inputCleared := true, counter := n }) ∧
    (f.size ≤ 5 * 1024 * 1024 →
      handleAttachmentChange true (some f) uid n details =
        { details := { details with
            attachments := some ((details.attachments.getD []) ++
              [{ id := uid "attach" n, name := f.name, type := f.type,
                 dataUrl := f.dataUrl }]) }
          inputCleared := true
          counter := n + 1 }) := by
  constructor
  · intro h
    simp [handleAttachmentChange, MAX_FILE_SIZE_BYTES, h]
  · intro h
    simp [handleAttachmentChange, MAX_FILE_SIZE_BYTES, Nat.not_lt.mpr h]

/-- Witness for C5: a 5 MiB + 1 byte file is rejected with the example
details untouched, while a 10-byte file is appended with its name, type
and data URL. -/
theorem attachment_size_limit_witness :
    handleAttachmentChange true
        (some { name := "big.pdf", type := "application/pdf",
                size := 5 * 1024 * 1024 + 1, dataUrl := "data:big" })
        exUid 0 exDetails =
      { details := exDetails, inputCleared := true, counter := 0 } ∧
    handleAttachmentChange true
        (some { name := "a.txt", type := "text/plain", size := 10,
                dataUrl := "data:a" })
        exUid 0 exDetails =
      { details := { exDetails with
          attachments := some [{ id := "attach-0"
                                 name := "a.txt"
                                 type := "text/plain"
                                 dataUrl := "data:a" }] }
        inputCleared := true
        counter := 1 } := by
  constructor
  · exact (attachment_size_limit
      { name := "big.pdf", type := "application/pdf",
        size := 5 * 1024 * 1024 + 1, dataUrl := "data:big" }
      exUid 0 exDetails).1 (by decide)
  · have h := (attachment_size_limit
      { name := "a.txt", type := "text/plain", size := 10, dataUrl := "data:a" }
      exUid 0 exDetails).2 (by decide)
    rw [h]
    decide

/-- Claim C10: when `task.extendedDetails` is absent the edit buffer is
initialized to the default object (empty `subSteps`, `attachments`,
`decisions`, empty `resources`, `responsible`, `notes`, canvas 1200×800);
when it is present the buffer is initialized to exactly that value. -/
theorem default_details_initialization :
    extendedDetailsOf none =
      { subSteps := []
        resources := ""
        responsible := ""
        notes := ""
        attachments := some []
        decisions := some []
        subStepCanvasSize := some { width := 1200, height := 800 }
        reportDeck := none } ∧
    ∀ d : EditableExtendedTaskDetails, extendedDetailsOf (some d) = d := by
  exact ⟨rfl, fun d => rfl⟩

/-- The list of sub-steps built from the confirmed proposals has one entry
per proposal. -/
theorem mkProposalSubSteps_length (uid : String → Nat → String) (n0 : Nat) :
    ∀ (ps : List Proposal) (i : Nat),
      (mkProposalSubSteps uid n0 ps i).length = ps.length
  | [], _ => rfl
  | _ :: ps, i => by
      simp [mkProposalSubSteps, mkProposalSubSteps_length uid n0 ps (i + 1)]

/-- The `k`-th sub-step built from the confirmed proposals, starting at
running index `i`, comes from the `k`-th proposal at index `i + k`. -/
theorem mkProposalSubSteps_getElem? (uid : String → Nat → String) (n0 : Nat) :
    ∀ (ps : List Proposal) (i k : Nat),
      (mkProposalSubSteps uid n0 ps i)[k]? =
        (ps[k]?).map (proposalSubStep uid n0 (i + k))
  | [], i, k => by simp [mkProposalSubSteps]
  | p :: ps, i, 0 => by simp [mkProposalSubSteps]
  | p :: ps, i, k + 1 => by
      have hidx : i + 1 + k = i + (k + 1) := by omega
      simp only [mkProposalSubSteps, List.getElem?_cons_succ,
        mkProposalSubSteps_getElem? uid n0 ps (i + 1) k, hidx]

/-- Pushing an action item at a target id that occurs nowhere leaves the
sub-step list unchanged. -/
theorem pushActionTo_of_not_mem (t : String) (ai : ActionItem) :
    ∀ subs : List SubStep, (∀ ss ∈ subs, ss.id ≠ t) →
      pushActionTo t ai subs = subs
  | [], _ => rfl
  | s :: rest, h => by
      have hs : s.id ≠ t := h s (List.mem_cons_self s rest)
      simp [pushActionTo, hs,
        pushActionTo_of_not_mem t ai rest
          (fun ss hss => h ss (List.mem_cons_of_mem s hss))]

/-- Pushing an action item whose target first occurs at position `j`
appends it to that sub-step's list and changes nothing else. -/
theorem pushActionTo_first_match (t : String) (ai : ActionItem) :
    ∀ (subs : List SubStep) (j : Nat) (ss : SubStep),
      subs[j]? = some ss → ss.id = t →
      (∀ k, k < j → ∀ ss', subs[k]? = some ss' → ss'.id ≠ t) →
      pushActionTo t ai subs =
        subs.set j
          { ss with actionItems := some ((ss.actionItems.getD []) ++ [ai]) }
  | [], j, ss, h, _, _ => by simp at h
  | s :: rest, 0, ss, h, hid, _ => by
      simp only [List.getElem?_cons_zero, Option.some.injEq] at h
      subst h
      simp [pushActionTo, hid]
  | s :: rest, j + 1, ss, h, hid, hfirst => by
      have hs : s.id ≠ t := hfirst 0 (Nat.succ_pos j) s (by simp)
      simp only [List.getElem?_cons_succ] at h
      have hrec := pushActionTo_first_match t ai rest j ss h hid
        (fun k hk ss' hss' =>
          hfirst (k + 1) (Nat.succ_lt_succ hk) ss' (by simpa using hss'))
      simp [pushActionTo, hs, hrec, List.set]

/-- Erasing the action items commutes with `pushActionTo`: the push only
changes an `actionItems` field. -/
theorem pushActionTo_map_sansActions (t : String) (ai : ActionItem) :
    ∀ subs : List SubStep,
      (pushActionTo t ai subs).map SubStep.sansActions =
        subs.map SubStep.sansActions
  | [] => rfl
  | s :: rest => by
      by_cases hs : s.id = t
      · simp [pushActionTo, hs, SubStep.sansActions]
      · simp [pushActionTo, hs, pushActionTo_map_sansActions t ai rest]

/-- The action-item request phase neither adds, removes, reorders nor
otherwise edits sub-steps: through the `sansActions` projection it is the
identity. -/
theorem applyActionRequests_map_sansActions (uid : String → Nat → String) :
    ∀ (rs : List NewActionItemRequest) (subs : List SubStep) (n : Nat),
      (applyActionRequests uid rs subs n).1.map SubStep.sansActions =
        subs.map SubStep.sansActions
  | [], _, _ => rfl
  | r :: rs, subs, n => by
      simp only [applyActionRequests]
      split
      · rw [applyActionRequests_map_sansActions uid rs _ (n + 1),
          pushActionTo_map_sansActions]
      · exact applyActionRequests_map_sansActions uid rs subs n

/-- Claim C4: `handleProposalConfirm` appends one new sub-step per
confirmed proposal after all existing sub-steps, in proposal order, the
`i`-th (0-based) placed at `(50 + (i % 3) * 300, 50 + ⌊i / 3⌋ * 200)` with
empty action items and attachments; the request phase changes only
`actionItems` fields, appends each requested item (not completed) to the
first sub-step of the combined list whose id equals its target, and
silently drops a request whose target matches no sub-step. -/
theorem proposalConfirm_layout_and_targeting (uid : String → Nat → String)
    (n0 : Nat) (details : EditableExtendedTaskDetails)
    (props : List Proposal) (reqs : List NewActionItemRequest) :
    (mkProposalSubSteps uid n0 props 0).length = props.length ∧
    (∀ (i : Nat) (p : Proposal), props[i]? = some p →
      (mkProposalSubSteps uid n0 props 0)[i]? = some
        { id := uid "substep" (n0 + i)
          text := p.title
          notes := some p.description
          position := some { x := 50 + ((i % 3 : Nat) : Int) * 300
                             y := 50 + ((i / 3 : Nat) : Int) * 200 }
          actionItems := some []
          attachments := some [] }) ∧
    ((handleProposalConfirm uid n0 details props reqs).1.subSteps =
      (applyActionRequests uid reqs
        (details.subSteps ++ mkProposalSubSteps uid n0 props 0)
        (n0 + props.length)).1) ∧
    ((handleProposalConfirm uid n0 details props reqs).1.subSteps.map
        SubStep.sansActions =
      (details.subSteps ++ mkProposalSubSteps uid n0 props 0).map
        SubStep.sansActions) ∧
    (∀ (subs : List SubStep) (n : Nat) (r : NewActionItemRequest)
        (rs : List NewActionItemRequest),
      (∀ ss ∈ subs, ss.id ≠ r.targetSubStepId) →
        applyActionRequests uid (r :: rs) subs n =
          applyActionRequests uid rs subs n) ∧
    (∀ (subs : List SubStep) (n : Nat) (r : NewActionItemRequest)
        (rs : List NewActionItemRequest) (j : Nat) (ss : SubStep),
      subs[j]? = some ss → ss.id = r.targetSubStepId →
      (∀ k, k < j → ∀ ss', subs[k]? = some ss' → ss'.id ≠ r.targetSubStepId) →
        applyActionRequests uid (r :: rs) subs n =
          applyActionRequests uid rs
            (subs.set j
              { ss with actionItems := some ((ss.actionItems.getD []) ++
                  [{ id := uid "action" n, text := r.title,
                     completed := false }]) })
            (n + 1)) := by
  refine ⟨mkProposalSubSteps_length uid n0 props 0, ?_, rfl, ?_, ?_, ?_⟩
  · intro i p hp
    rw [mkProposalSubSteps_getElem? uid n0 props 0 i, hp]
    simp [proposalSubStep]
  · exact applyActionRequests_map_sansActions uid reqs
      (details.subSteps ++ mkProposalSubSteps uid n0 props 0)
      (n0 + props.length)
  · intro subs n r rs h
    have hg : subs.any (fun ss => ss.id = r.targetSubStepId) = false := by
      simp only [List.any_eq_false, decide_eq_true_eq]
      exact h
    simp [applyActionRequests, hg]
  · intro subs n r rs j ss hj hid hfirst
    have hmem : ss ∈ subs := List.getElem?_mem hj
    have hg : subs.any (fun ss => ss.id = r.targetSubStepId) = true := by
      simp only [List.any_eq_true, decide_eq_true_eq]
      exact ⟨ss, hmem, hid⟩
    simp only [applyActionRequests, hg, if_true]
    rw [pushActionTo_first_match r.targetSubStepId _ subs j ss hj hid hfirst]

/-- Witness for C4: with four proposals the fourth lands at (50, 250); a
request targeting the absent id `zz` is dropped, and a request targeting
`s1` appends exactly one fresh not-completed action item to it. -/
theorem proposalConfirm_layout_and_targeting_witness :
    (mkProposalSubSteps exUid 0 exProps 0)[3]? = some
      { id := "substep-3", text := "P3", notes := some "d3"
        position := some { x := 50, y := 250 }
        actionItems := some [], attachments := some [] } ∧
    applyActionRequests exUid [{ targetSubStepId := "zz", title := "drop" }]
        [exSubStep1] 7 = ([exSubStep1], 7) ∧
    applyActionRequests exUid [{ targetSubStepId := "s1", title := "do" }]
        [exSubStep1, exSubStep2] 4 =
      ([{ exSubStep1 with actionItems := some [exActionA,
            { id := "action-4", text := "do", completed := false }] },
        exSubStep2], 5) := by
  refine ⟨?_, ?_, ?_⟩
  · have h := (proposalConfirm_layout_and_targeting exUid 0 exDetails exProps
      []).2.1 3 { title := "P3", description := "d3" } (by decide)
    rw [h]
    decide
  · have h := (proposalConfirm_layout_and_targeting exUid 0 exDetails exProps
      []).2.2.2.2.1 [exSubStep1] 7 { targetSubStepId := "zz", title := "drop" }
      [] (by decide)
    rw [h]
    rfl
  · have h := (proposalConfirm_layout_and_targeting exUid 0 exDetails exProps
      []).2.2.2.2.2 [exSubStep1, exSubStep2] 4
      { targetSubStepId := "s1", title := "do" } [] 0 exSubStep1 (by decide)
      (by decide) (fun k hk _ _ => absurd hk (Nat.not_lt_zero k))
    rw [h]
    decide

/-- Claim C6: with a deck already present, `handleGenerateSlides` opens
the slide editor without consulting the AI call's outcome and without
modifying the deck; with no deck, success stores the returned deck and
opens the editor while failure records the error message and leaves the
details unchanged; in every case the generating flag ends up false (the
handler only runs from the idle state, where the button is enabled). -/
theorem generateSlides_branching_atomic (st : SlidesState)
    (r : Except (Option String) SlideDeck)
    (hidle : st.isGeneratingSlides = false) :
    (∀ d, st.details.reportDeck = some d →
      (handleGenerateSlides st r = { st with isSlideEditorOpen := true } ∧
        ∀ r', handleGenerateSlides st r' = handleGenerateSlides st r)) ∧
    (st.details.reportDeck = none →
      (∀ deck, r = .ok deck →
        handleGenerateSlides st r =
          { st with
              details := { st.details with reportDeck := some deck }
              isSlideEditorOpen := true
              isGeneratingSlides := false
              slideError := none }) ∧
      (∀ e, r = .error e →
        handleGenerateSlides st r =
          { st with
              isGeneratingSlides := false
              slideError := some (e.getD slideErrorFallback) })) ∧
    (handleGenerateSlides st r).isGeneratingSlides = false := by
  refine ⟨?_, ?_, ?_⟩
  · intro d hd
    constructor
    · simp [handleGenerateSlides, hd]
    · intro r'
      simp [handleGenerateSlides, hd]
  · intro hnone
    constructor
    · intro deck hdeck
      subst hdeck
      simp [handleGenerateSlides, hnone]
    · intro e he
      subst he
      simp [handleGenerateSlides, hnone]
  · cases hd : st.details.reportDeck with
    | some d => simp [handleGenerateSlides, hd, hidle]
    | none => cases r <;> simp [handleGenerateSlides, hd]

/-- Witness for C6: from the idle example state with no deck, a non-`Error`
throw records the fallback message and clears the flag; with a deck
present, the editor opens and the details keep the deck. -/
theorem generateSlides_branching_atomic_witness :
    handleGenerateSlides exSlidesState (Except.error none) =
      { exSlidesState with
          isGeneratingSlides := false
          slideError := some slideErrorFallback } ∧
    handleGenerateSlides
        { exSlidesState with details := { exDetails with reportDeck := some exDeck } }
        (Except.error (some "boom")) =
      { exSlidesState with
          details := { exDetails with reportDeck := some exDeck }
          isSlideEditorOpen := true } := by
  constructor
  · have h := ((generateSlides_branching_atomic exSlidesState (Except.error none)
      rfl).2.1 rfl).2 none rfl
    rw [h]
    rfl
  · have h := ((generateSlides_branching_atomic
      { exSlidesState with details := { exDetails with reportDeck := some exDeck } }
      (Except.error (some "boom")) rfl).1 exDeck rfl).1
    rw [h]

/-- Claim C7: when the AI call throws, `handleGenerateProposals` records
the thrown `Error`'s message (or the fixed fallback for a non-`Error`
value), does not open the review modal, and leaves the details unchanged;
when it succeeds, the proposals are stored and the modal opened; in both
cases the generating flag is cleared. -/
theorem generateProposals_error_atomic (st : ProposalsState)
    (r : Except (Option String) (List Proposal)) :
    (∀ e, r = .error e →
      handleGenerateProposals true st r =
        { st with
            isGeneratingProposals := false
            proposalError := some (e.getD proposalErrorFallback) }) ∧
    (∀ ps, r = .ok ps →
      handleGenerateProposals true st r =
        { st with
            proposals := ps
            showProposalReview := true
            isGeneratingProposals := false
            proposalError := none }) ∧
    (handleGenerateProposals true st r).isGeneratingProposals = false ∧
    (handleGenerateProposals true st r).details = st.details := by
  refine ⟨?_, ?_, ?_, ?_⟩
  · intro e he
    subst he
    rfl
  · intro ps hps
    subst hps
    rfl
  · cases r <;> rfl
  · cases r <;> rfl

/-- Witness for C7: an `Error` with message `err` is recorded verbatim
with the modal kept closed, and a successful call stores the proposals and
opens the review modal; the example details are untouched either way. -/
theorem generateProposals_error_atomic_witness :
    handleGenerateProposals true exProposalsState (Except.error (some "err")) =
      { exProposalsState with
          isGeneratingProposals := false
          proposalError := some "err" } ∧
    handleGenerateProposals true exProposalsState (Except.ok exProps) =
      { exProposalsState with
          proposals := exProps
          showProposalReview := true
          isGeneratingProposals := false
          proposalError := none } := by
  constructor
  · have h := (generateProposals_error_atomic exProposalsState
      (Except.error (some "err"))).1 (some "err") rfl
    rw [h]
    rfl
  · exact (generateProposals_error_atomic exProposalsState
      (Except.ok exProps)).2.1 exProps rfl

/-- With `canEdit = false` every gated handler returns the modal state it
was given: each one starts with `if (!canEdit) return;`. -/
theorem applyOp_readonly (uid : String → Nat → String) (st : ModalState)
    (op : ModalOp) : applyOp uid false st op = st := by
  obtain ⟨det, props, srev, igp, perr, drag, n⟩ := st
  cases op <;> first
    | rfl
    | (cases drag <;> rfl)

/-- Claim C8: with `canEdit = false`, every gated handler leaves the local
edit buffer untouched, and hence any sequence of such invocations leaves
the local details equal to their initial value. -/
theorem readonly_gating_preserves_details (uid : String → Nat → String)
    (ops : List ModalOp) (st : ModalState) :
    (∀ op : ModalOp, (applyOp uid false st op).details = st.details) ∧
    (ops.foldl (applyOp uid false) st).details = st.details := by
  constructor
  · intro op
    rw [applyOp_readonly uid st op]
  · induction ops generalizing st with
    | nil => rfl
    | cons op ops ih =>
        rw [List.foldl_cons, applyOp_readonly uid st op]
        exact ih st

/-- Pushing the pairs of one sub-step's action items onto an accumulator
appends them in order. -/
theorem foldl_push_eq_append (ss : SubStep) :
    ∀ (l : List ActionItem) (acc : List (ActionItem × SubStep)),
      l.foldl (fun acc ai => acc ++ [(ai, ss)]) acc =
        acc ++ l.map (fun ai => (ai, ss))
  | [], acc => by simp
  | ai :: l, acc => by
      simp [List.foldl_cons, foldl_push_eq_append ss l (acc ++ [(ai, ss)])]

/-- The push-based fold of `flattenedActionItems` computes the
concatenation of the per-sub-step pair lists. -/
theorem flattenedItems_foldl_eq :
    ∀ (subs : List SubStep) (acc : List (ActionItem × SubStep)),
      subs.foldl
        (fun items ss =>
          (ss.actionItems.getD []).foldl (fun acc ai => acc ++ [(ai, ss)]) items)
        acc =
      acc ++ (subs.map (fun ss =>
        (ss.actionItems.getD []).map (fun ai => (ai, ss)))).flatten
  | [], acc => by simp
  | s :: rest, acc => by
      simp only [List.foldl_cons, List.map_cons, List.flatten_cons,
        flattenedItems_foldl_eq rest _, foldl_push_eq_append s _ acc,
        List.append_assoc]

/-- The completed-item count of one flattened block equals the
completed-item count of the underlying action-item list. -/
theorem flatten_filter_completed_length :
    ∀ subs : List SubStep,
      (((subs.map (fun ss =>
          (ss.actionItems.getD []).map (fun ai => (ai, ss)))).flatten).filter
        (fun p => p.1.completed)).length =
      (subs.map (fun ss =>
        ((ss.actionItems.getD []).filter (fun ai => ai.completed)).length)).sum
  | [] => rfl
  | s :: rest => by
      simp only [List.map_cons, List.flatten_cons, List.filter_append,
        List.length_append, List.sum_cons, flatten_filter_completed_length rest,
        List.filter_map, List.length_map, Function.comp]
      rfl

/-- Claim C9: `flattenedActionItems` is the concatenation, in sub-step
order, of each sub-step's action items (a missing list counting as empty),
each paired with its owning sub-step; consequently its length is the sum of
the per-sub-step counts and its completed count is the sum of the
per-sub-step completed counts. -/
theorem flattened_action_items_homomorphism (details : EditableExtendedTaskDetails) :
    flattenedActionItems details =
      (details.subSteps.map (fun ss =>
        (ss.actionItems.getD []).map (fun ai => (ai, ss)))).flatten ∧
    (flattenedActionItems details).length =
      (details.subSteps.map (fun ss => (ss.actionItems.getD []).length)).sum ∧
    ((flattenedActionItems details).filter (fun p => p.1.completed)).length =
      (details.subSteps.map (fun ss =>
        ((ss.actionItems.getD []).filter (fun ai => ai.completed)).length)).sum := by
  have h1 : flattenedActionItems details =
      (details.subSteps.map (fun ss =>
        (ss.actionItems.getD []).map (fun ai => (ai, ss)))).flatten := by
    simpa using flattenedItems_foldl_eq details.subSteps []
  refine ⟨h1, ?_, ?_⟩
  · rw [h1, List.length_flatten, List.map_map]
    have hf : (List.length ∘ fun ss : SubStep =>
        List.map (fun ai => (ai, ss)) (ss.actionItems.getD [])) =
        fun ss : SubStep => (ss.actionItems.getD []).length := by
      funext ss
      simp [Function.comp]
    rw [hf]
  · rw [h1]
    exact flatten_filter_completed_length details.subSteps
